import Mathlib

/-!
Verification of the `windowsdnsserver-py` command/result layer.

Shallow embedding of:
  - `src/windowsdnsserver/command_runner/powershell_runner.py`
    (`PowerShellCommand`, `PowerShellRunner`)
  - `src/windowsdnsserver/dns/dnsserver.py` (`DnsServerModule`)

External process execution is modelled by a `ProcessBehavior` value
(launch failure versus completion with exit code and captured byte
streams), and the platform text encoding by an abstract partial
per-byte decoder.  Python optional/str parameters whose use sites test
truthiness (`if name:`) are modelled as `Option String` together with
the `truthy` predicate, which is false exactly on `None` and `""`.
-/

namespace WinDns

/-- Python truthiness of an optional string: `None` and `""` are falsy. -/
def truthy : Option String → Bool
  | none => false
  | some s => !s.isEmpty

/-- `PowerShellCommand` from `powershell_runner.py`: a cmdlet identifier,
positional flags (in supplied order), keyword arguments (an
insertion-ordered mapping, modelled as an association list) and the
`to_json_convert` switch. -/
structure PowerShellCommand where
  cmdlet : String
  flags : List String
  args : List (String × String)
  to_json_convert : Bool
deriving Repr, DecidableEq

/-- `PowerShellCommand.build`: start from `[cmdlet]`, append `-flag` for
each flag in order, append a single `-name value` token per keyword
argument in order, and finally append `|` and `ConvertTo-Json` when
`to_json_convert` is set — mirroring the two loops and the final `if`
of the source. -/
def PowerShellCommand.build (c : PowerShellCommand) : List String :=
  let cmd := [c.cmdlet]
  let cmd := c.flags.foldl (fun acc flag => acc ++ ["-" ++ flag]) cmd
  let cmd := c.args.foldl (fun acc p => acc ++ ["-" ++ p.1 ++ " " ++ p.2]) cmd
  if c.to_json_convert then (cmd ++ ["|"]) ++ ["ConvertTo-Json"] else cmd

/-- `Result` from `runner.py` (constructed in `PowerShellRunner.run`):
success flag, exit code, decoded stdout and stderr. -/
structure Result where
  success : Bool
  code : Int
  out : String
  err : String
deriving Repr, DecidableEq

/-- What the child process does when `PowerShellRunner.run` invokes it:
either `subprocess.Popen` raises (launch failure), or the process runs
to an exit code with captured stdout/stderr byte streams (the timeout
path also ends here: after `kill`, `communicate` still yields the exit
code and best-effort output). -/
inductive ProcessBehavior where
  | launchFailure (msg : String)
  | completes (code : Int) (outBytes errBytes : List Nat)

/-- One byte decoded with the `replace` error handler: the platform
decoder `enc` when it succeeds, the Unicode replacement character
U+FFFD otherwise. -/
def decodeByte (enc : Nat → Option Char) (b : Nat) : Char :=
  (enc b).getD (Char.ofNat 0xFFFD)

/-- `bytes.decode(sys.stdout.encoding, 'replace')`: decode every
captured byte, substituting U+FFFD for undecodable ones. -/
def decodeReplace (enc : Nat → Option Char) (bs : List Nat) : String :=
  String.mk (bs.map (decodeByte enc))

/-- `PowerShellRunner.run`.  `subprocess.Popen` sits outside the
`try`/`except`, so a launch failure propagates as an exception
(modelled as `Except.error`).  On completion the captured streams are
decoded with the replace handler and `success` is `exit code == 0`. -/
def PowerShellRunner.run (enc : Nat → Option Char) (behavior : ProcessBehavior)
    (_command : PowerShellCommand) : Except String Result :=
  match behavior with
  | .launchFailure msg => .error msg
  | .completes code outBytes errBytes =>
      .ok { success := code == 0
            code := code
            out := decodeReplace enc outBytes
            err := decodeReplace enc errBytes }

/-- Modelled from the spec: `RecordType` from `windowsdnsserver/dns/record.py`,
which is not under `src/`.  A fixed closed enumeration whose `value` is the
external tool's record-type token ("A", "CNAME", "Txt"). -/
inductive RecordType where
  | A
  | CNAME
  | TXT
deriving Repr, DecidableEq

/-- Modelled from the spec: the token mapping of `RecordType`. -/
def RecordType.value : RecordType → String
  | .A => "A"
  | .CNAME => "CNAME"
  | .TXT => "Txt"

/-- Modelled from the spec: `Record` from `windowsdnsserver/dns/record.py`,
which is not under `src/`: zone, name, type, type-specific value and an
optional TTL. -/
structure Record where
  zone : String
  name : String
  type : RecordType
  value : String
  ttl : Option String
deriving Repr, DecidableEq

/-- A parsed JSON value (the output of `json.loads` on the runner's
stdout), as far as the translator needs it. -/
inductive Json where
  | obj (fields : List (String × Json))
  | arr (elems : List Json)
  | str (s : String)
  | num (n : Int)
  | jsonBool (b : Bool)
  | null
deriving Repr

/-- Look a field up in a JSON object; `none` on any other shape. -/
def Json.getField : Json → String → Option Json
  | .obj fields, key => (fields.find? (fun p => p.1 = key)).map Prod.snd
  | _, _ => none

/-- The string content of a JSON value, when it is a string. -/
def Json.asString : Json → Option String
  | .str s => some s
  | _ => none

/-- Modelled from the spec: one row of `transform_dns_server_result`
(`windowsdnsserver/util/dns_server_utils.py`, not under `src/`).
Extract the record type token, the name, and the type-specific value
field (A → IPv4 address, CNAME → alias target, TXT → descriptive
text), attach the queried zone; unknown record-type tokens are skipped
(`none`). -/
def transformRow (zone : String) (row : Json) : Option Record :=
  match (row.getField "RecordType").bind Json.asString,
        (row.getField "HostName").bind Json.asString with
  | some typeToken, some name =>
      match (if typeToken = "A" then some RecordType.A
             else if typeToken = "CNAME" then some RecordType.CNAME
             else if typeToken = "Txt" then some RecordType.TXT
             else none) with
      | some rt =>
          let valueField :=
            match rt with
            | .A => "IPv4Address"
            | .CNAME => "HostNameAlias"
            | .TXT => "DescriptiveText"
          match ((row.getField "RecordData").bind
                   (fun d => d.getField valueField)).bind Json.asString with
          | some value =>
              some { zone := zone, name := name, type := rt,
                     value := value, ttl := (row.getField "TimeToLive").bind Json.asString }
          | none => none
      | none => none
  | _, _ => none

/-- Modelled from the spec: `transform_dns_server_result` from
`windowsdnsserver/util/dns_server_utils.py` (not under `src/`).  The
external tool emits a bare object when exactly one row matches;
normalize to a list and translate each row, skipping rows that do not
decode to a supported record. -/
def transform_dns_server_result (zone : String) (j : Json) : List Record :=
  let rows :=
    match j with
    | .arr elems => elems
    | other => [other]
  rows.filterMap (transformRow zone)

/-- Two-digit zero padding of a time-span component. -/
def pad2 (n : Nat) : String :=
  if n < 10 then "0" ++ toString n else toString n

/-- A Windows time-span token `hh:mm:ss`, the duration representation
the DnsServer cmdlets expect for `TimeToLive`. -/
def formatTimeSpan (h m s : Nat) : String :=
  pad2 h ++ ":" ++ pad2 m ++ ":" ++ pad2 s

/-- The numeric value of a digit run, most significant first. -/
def digitsToNat (ds : List Char) : Nat :=
  ds.foldl (fun acc c => acc * 10 + (c.toNat - 48)) 0

/-- Modelled from the spec: `format_ttl` from
`windowsdnsserver/util/dns_server_utils.py`, which is not under `src/`.
It accepts a duration written as a number with a recognized unit suffix
("1h", "30m", "45s"), converts it to the external tool's expected
duration token (an `hh:mm:ss` time span), and fails fast with a
descriptive error on malformed input instead of returning a default. -/
def format_ttl (ttl : String) : Except String String :=
  if (ttl.data.takeWhile Char.isDigit).isEmpty then
    .error ("Invalid TTL, no numeric part: [" ++ ttl ++ "]")
  else if ttl.data.dropWhile Char.isDigit = ['h'] then
    .ok (formatTimeSpan (digitsToNat (ttl.data.takeWhile Char.isDigit)) 0 0)
  else if ttl.data.dropWhile Char.isDigit = ['m'] then
    .ok (formatTimeSpan 0 (digitsToNat (ttl.data.takeWhile Char.isDigit)) 0)
  else if ttl.data.dropWhile Char.isDigit = ['s'] then
    .ok (formatTimeSpan 0 0 (digitsToNat (ttl.data.takeWhile Char.isDigit)))
  else
    .error ("Invalid TTL, unrecognized unit suffix: [" ++ ttl ++ "]")

/-- A TTL string of the shape `format_ttl` recognizes: a non-empty
digit run followed by a single recognized unit character. -/
def ttl_well_formed (ttl : String) : Bool :=
  !ttl.data.dropLast.isEmpty &&
    ttl.data.dropLast.all Char.isDigit &&
      (ttl.data.getLast? = some 'h' || ttl.data.getLast? = some 'm' ||
        ttl.data.getLast? = some 's')

/-- `DnsServerModule` state after construction: the optionally
configured target server (`self.server`).  The runner and logger are
abstracted: methods take the runner as a function from the built
command to the external tool's `Result`. -/
structure DnsServerModule where
  server : Option String
deriving Repr, DecidableEq

/-- Outcome of `DnsServerModule.__init__`: either a constructed module
or the `AssertionError` raised by the platform assertion. -/
inductive InitResult where
  | ok (m : DnsServerModule)
  | assertionError (msg : String)
deriving Repr, DecidableEq

/-- `DnsServerModule.__init__`: asserts `platform.system() == 'Windows'`
before storing the configured server. -/
def DnsServerModule.init (systemName : String) (server : Option String) : InitResult :=
  if systemName = "Windows" then
    .ok { server := server }
  else
    .assertionError "DnsServerModule can run only on a Windows Server"

/-- The command built by `DnsServerModule.get_dns_records`: keyword
arguments `ZoneName`, then `Computer`/`Name`/`RRType` under their
truthiness guards, with JSON conversion requested. -/
def DnsServerModule.get_dns_records_command (m : DnsServerModule) (zone : String)
    (name : Option String) (record_type : Option RecordType) : PowerShellCommand :=
  { cmdlet := "Get-DnsServerResourceRecord"
    flags := []
    args := [("ZoneName", zone)]
         ++ (if truthy m.server then [("Computer", m.server.getD "")] else [])
         ++ (if truthy name then [("Name", name.getD "")] else [])
         ++ (match record_type with
             | some rt => [("RRType", rt.value)]
             | none => [])
    to_json_convert := true }

/-- `DnsServerModule.get_dns_records`: run the query command; on
success parse stdout as JSON (`json.loads`, modelled by the abstract
`parse`, whose failure propagates) and translate the rows; on failure
return the empty list. -/
def DnsServerModule.get_dns_records (m : DnsServerModule)
    (runner : PowerShellCommand → Result) (parse : String → Except String Json)
    (zone : String) (name : Option String) (record_type : Option RecordType) :
    Except String (List Record) :=
  let result := runner (m.get_dns_records_command zone name record_type)
  if result.success then
    (parse result.out).map (transform_dns_server_result zone)
  else
    .ok []

/-- The command built by `DnsServerModule.add_a_record`.  The source
calls `PowerShellCommand(..., 'AllowUpdateAny', to_json_convert=False,
*args)` with `args` a dict: star-unpacking a dict yields its KEYS in
insertion order, so the argument names become positional flags and the
keyword-argument mapping stays empty, dropping every supplied value.
`format_ttl` is still evaluated (and may fail) when `ttl` is truthy. -/
def DnsServerModule.add_a_record_command (m : DnsServerModule)
    (zone name ip : String) (ttl : Option String) :
    Except String PowerShellCommand := do
  let argKeys := [("ZoneName", zone), ("Name", name), ("IPv4Address", ip)]
       ++ (if truthy m.server then [("Computer", m.server.getD "")] else [])
  let argKeys ←
    if truthy ttl then do
      let t ← format_ttl (ttl.getD "")
      pure (argKeys ++ [("TimeToLive", t)])
    else
      pure argKeys
  pure { cmdlet := "Add-DnsServerResourceRecordA"
         flags := "AllowUpdateAny" :: argKeys.map Prod.fst
         args := []
         to_json_convert := false }

/-- `DnsServerModule.add_a_record`: build the command (propagating a
TTL formatting error), run it, and return the runner's success flag. -/
def DnsServerModule.add_a_record (m : DnsServerModule)
    (runner : PowerShellCommand → Result) (zone name ip : String)
    (ttl : Option String) : Except String Bool := do
  let command ← m.add_a_record_command zone name ip ttl
  pure (runner command).success

/-- The command built by `DnsServerModule.remove_a_record`: flag
`Force`; keyword arguments `ZoneName`, `RRType=A`, then `Computer` and
`Name` under their truthiness guards. -/
def DnsServerModule.remove_a_record_command (m : DnsServerModule)
    (zone : String) (name : Option String) : PowerShellCommand :=
  { cmdlet := "Remove-DnsServerResourceRecord"
    flags := ["Force"]
    args := [("ZoneName", zone), ("RRType", "A")]
         ++ (if truthy m.server then [("Computer", m.server.getD "")] else [])
         ++ (if truthy name then [("Name", name.getD "")] else [])
    to_json_convert := false }

/-- `DnsServerModule.remove_a_record`: run the removal command and
return the runner's success flag. -/
def DnsServerModule.remove_a_record (m : DnsServerModule)
    (runner : PowerShellCommand → Result) (zone : String) (name : Option String) :
    Bool :=
  (runner (m.remove_a_record_command zone name)).success

/-- The command built by `DnsServerModule.add_cname_record`: keyword
arguments `ZoneName`, `Name`, `HostNameAlias` (the target wrapped in
literal double quotes), then `Computer` and `TimeToLive` under their
guards; no flags (`AllowUpdateAny` is commented out in the source). -/
def DnsServerModule.add_cname_record_command (m : DnsServerModule)
    (zone alias_name server_name : String) (ttl : Option String) :
    Except String PowerShellCommand := do
  let args := [("ZoneName", zone), ("Name", alias_name),
               ("HostNameAlias", "\"" ++ server_name ++ "\"")]
       ++ (if truthy m.server then [("Computer", m.server.getD "")] else [])
  let args ←
    if truthy ttl then do
      let t ← format_ttl (ttl.getD "")
      pure (args ++ [("TimeToLive", t)])
    else
      pure args
  pure { cmdlet := "Add-DnsServerResourceRecordCName"
         flags := []
         args := args
         to_json_convert := false }

/-- `DnsServerModule.add_cname_record`: run the command (logging both
streams on failure, a side channel not modelled) and return the
runner's success flag. -/
def DnsServerModule.add_cname_record (m : DnsServerModule)
    (runner : PowerShellCommand → Result) (zone alias_name server_name : String)
    (ttl : Option String) : Except String Bool := do
  let command ← m.add_cname_record_command zone alias_name server_name ttl
  pure (runner command).success

/-- The command built by `DnsServerModule.remove_cname_record`: flag
`Force`; keyword arguments `ZoneName`, `RRType=CNAME`, then `Computer`
and `Name` under their truthiness guards. -/
def DnsServerModule.remove_cname_record_command (m : DnsServerModule)
    (zone : String) (alias_name : Option String) : PowerShellCommand :=
  { cmdlet := "Remove-DnsServerResourceRecord"
    flags := ["Force"]
    args := [("ZoneName", zone), ("RRType", "CNAME")]
         ++ (if truthy m.server then [("Computer", m.server.getD "")] else [])
         ++ (if truthy alias_name then [("Name", alias_name.getD "")] else [])
    to_json_convert := false }

/-- `DnsServerModule.remove_cname_record`: run the removal command and
return the runner's success flag. -/
def DnsServerModule.remove_cname_record (m : DnsServerModule)
    (runner : PowerShellCommand → Result) (zone : String)
    (alias_name : Option String) : Bool :=
  (runner (m.remove_cname_record_command zone alias_name)).success

/-- The command built by `DnsServerModule.add_txt_record`: flags
`AllowUpdateAny` and `Txt`; keyword arguments `ZoneName`, `Name`,
`DescriptiveText`, `TimeToLive` (always formatted; `ttl` defaults to
`'1h'` at the Python call site).  The configured server is never
consulted by this method. -/
def DnsServerModule.add_txt_record_command (_m : DnsServerModule)
    (zone name content ttl : String) : Except String PowerShellCommand := do
  let t ← format_ttl ttl
  pure { cmdlet := "Add-DnsServerResourceRecord"
         flags := ["AllowUpdateAny", "Txt"]
         args := [("ZoneName", zone), ("Name", name),
                  ("DescriptiveText", content), ("TimeToLive", t)]
         to_json_convert := false }

/-- `DnsServerModule.add_txt_record`: build the command (propagating a
TTL formatting error), run it, and return the runner's success flag. -/
def DnsServerModule.add_txt_record (m : DnsServerModule)
    (runner : PowerShellCommand → Result) (zone name content : String)
    (ttl : String) : Except String Bool := do
  let command ← m.add_txt_record_command zone name content ttl
  pure (runner command).success

/-- The command built by `DnsServerModule.remove_txt_record`: flag
`Force`; keyword arguments `ZoneName`, `RRType=Txt`, then `Computer`,
`Name` and `RecordData` (the value wrapped in literal double quotes)
under their truthiness guards. -/
def DnsServerModule.remove_txt_record_command (m : DnsServerModule)
    (zone : String) (name record_data : Option String) : PowerShellCommand :=
  { cmdlet := "Remove-DnsServerResourceRecord"
    flags := ["Force"]
    args := [("ZoneName", zone), ("RRType", "Txt")]
         ++ (if truthy m.server then [("Computer", m.server.getD "")] else [])
         ++ (if truthy name then [("Name", name.getD "")] else [])
         ++ (if truthy record_data then
               [("RecordData", "\"" ++ record_data.getD "" ++ "\"")]
             else [])
    to_json_convert := false }

/-- `DnsServerModule.remove_txt_record`: run the removal command and
return the runner's success flag. -/
def DnsServerModule.remove_txt_record (m : DnsServerModule)
    (runner : PowerShellCommand → Result) (zone : String)
    (name record_data : Option String) : Bool :=
  (runner (m.remove_txt_record_command zone name record_data)).success

/-- The command built by `DnsServerModule.is_dns_server_module_installed`:
the cmdlet string `'Get-Module DNSServer'` (a single token carrying a
space) with the `ListAvailable` flag. -/
def DnsServerModule.is_dns_server_module_installed_command : PowerShellCommand :=
  { cmdlet := "Get-Module DNSServer"
    flags := ["ListAvailable"]
    args := []
    to_json_convert := false }

/-- `DnsServerModule.is_dns_server_module_installed`: run the module
query and return `result.success and len(result.out) > 0`. -/
def DnsServerModule.is_dns_server_module_installed (_m : DnsServerModule)
    (runner : PowerShellCommand → Result) : Bool :=
  let result := runner DnsServerModule.is_dns_server_module_installed_command
  result.success && decide (0 < result.out.length)

/-! ## Helper lemmas -/

/-- Folding `acc ++ [f x]` over a list appends the mapped list. -/
theorem foldl_append_singleton {α β : Type} (f : α → β) :
    ∀ (l : List α) (init : List β),
      l.foldl (fun acc x => acc ++ [f x]) init = init ++ l.map f := by
  intro l
  induction l with
  | nil => intro init; simp
  | cons a as ih =>
      intro init
      simp [List.foldl, ih (init ++ [f a])]

/-- A string is distinct from the empty string exactly when its length
is positive. -/
theorem string_ne_empty_iff_length_pos (s : String) : s ≠ "" ↔ 0 < s.length := by
  cases s with
  | mk data =>
      cases data with
      | nil => simp [String.length]
      | cons c cs =>
          constructor
          · intro _; simp [String.length]
          · intro _ h
            exact List.cons_ne_nil c cs (congrArg String.data h)

/-- Appending a non-empty string keeps the length positive. -/
theorem length_pos_append_right (a b : String) (hb : 0 < b.length) :
    0 < (a ++ b).length := by
  rw [String.length_append]
  omega

/-- Bind on a successful `Except` applies the continuation. -/
theorem except_bind_ok {ε α β : Type} (a : α) (f : α → Except ε β) :
    (Except.ok a >>= f) = f a := rfl

/-- Bind on a failed `Except` keeps the error. -/
theorem except_bind_error {ε α β : Type} (e : ε) (f : α → Except ε β) :
    ((Except.error e : Except ε α) >>= f) = Except.error e := rfl

/-- Bind after `pure` applies the continuation. -/
theorem except_pure_bind {ε α β : Type} (a : α) (f : α → Except ε β) :
    ((pure a : Except ε α) >>= f) = f a := rfl

/-- When `format_ttl` succeeds, its input was a non-empty digit run
followed by a recognized unit character. -/
theorem format_ttl_ok_well_formed (ttl t : String)
    (h : format_ttl ttl = Except.ok t) : ttl_well_formed ttl = true := by
  unfold format_ttl at h
  by_cases hd : (ttl.data.takeWhile Char.isDigit).isEmpty = true
  · rw [if_pos hd] at h
    exact Except.noConfusion h
  · rw [if_neg hd] at h
    have hsplit : ttl.data.takeWhile Char.isDigit ++ ttl.data.dropWhile Char.isDigit
        = ttl.data := List.takeWhile_append_dropWhile Char.isDigit ttl.data
    have htw : ∀ u : Char, (u = 'h' ∨ u = 'm' ∨ u = 's') →
        ttl.data.dropWhile Char.isDigit = [u] →
        ttl_well_formed ttl = true := by
      intro u hopt hu
      have hdata : ttl.data = ttl.data.takeWhile Char.isDigit ++ [u] := by
        rw [← hu, hsplit]
      unfold ttl_well_formed
      rw [hdata, List.dropLast_concat, List.getLast?_concat]
      have hne : ttl.data.takeWhile Char.isDigit ≠ [] := by
        intro hnil
        exact hd (by rw [hnil]; rfl)
      have hall : (ttl.data.takeWhile Char.isDigit).all Char.isDigit = true :=
        List.all_eq_true.2 fun c hc => List.mem_takeWhile_imp hc
      rw [← hu] at hdata
      rcases hopt with rfl | rfl | rfl <;> simp [hne, hall]
    by_cases hh : ttl.data.dropWhile Char.isDigit = ['h']
    · exact htw 'h' (Or.inl rfl) hh
    · rw [if_neg hh] at h
      by_cases hm : ttl.data.dropWhile Char.isDigit = ['m']
      · exact htw 'm' (Or.inr (Or.inl rfl)) hm
      · rw [if_neg hm] at h
        by_cases hs : ttl.data.dropWhile Char.isDigit = ['s']
        · exact htw 's' (Or.inr (Or.inr rfl)) hs
        · rw [if_neg hs] at h
          exact Except.noConfusion h

/-- When `format_ttl` fails, its error message is non-empty (both
messages of the source model end with a closing bracket). -/
theorem format_ttl_error_msg_pos (ttl msg : String)
    (h : format_ttl ttl = Except.error msg) : 0 < msg.length := by
  unfold format_ttl at h
  by_cases hd : (ttl.data.takeWhile Char.isDigit).isEmpty = true
  · rw [if_pos hd] at h
    injection h with h2
    rw [← h2]
    exact length_pos_append_right _ _ (by decide)
  · rw [if_neg hd] at h
    by_cases hh : ttl.data.dropWhile Char.isDigit = ['h']
    · rw [if_pos hh] at h
      exact Except.noConfusion h
    · rw [if_neg hh] at h
      by_cases hm : ttl.data.dropWhile Char.isDigit = ['m']
      · rw [if_pos hm] at h
        exact Except.noConfusion h
      · rw [if_neg hm] at h
        by_cases hs : ttl.data.dropWhile Char.isDigit = ['s']
        · rw [if_pos hs] at h
          exact Except.noConfusion h
        · rw [if_neg hs] at h
          injection h with h2
          rw [← h2]
          exact length_pos_append_right _ _ (by decide)

/-! ## Claim theorems -/

/-- Claim C2: `PowerShellCommand.build` returns the cmdlet first, then
one `-flag` token per flag in supplied order, then one `-name value`
token per keyword argument in supplied order, then `|` and
`ConvertTo-Json` exactly when `to_json_convert` is set. -/
theorem powershell_command_build_spec (c : PowerShellCommand) :
    c.build =
      c.cmdlet ::
        (c.flags.map (fun flag => "-" ++ flag) ++
          c.args.map (fun p => "-" ++ p.1 ++ " " ++ p.2) ++
            (if c.to_json_convert then ["|", "ConvertTo-Json"] else [])) := by
  unfold PowerShellCommand.build
  dsimp only
  rw [foldl_append_singleton, foldl_append_singleton]
  cases c.to_json_convert <;> simp

/-- Claim C1: the source's `add_a_record` star-unpacks the keyword
dict (`*args` instead of `**args`), so for the concrete inputs
zone `myzone.com`, name `www`, ip `10.0.0.99` (no ttl, no server) the
built token sequence carries the argument names as bare flags, the
keyword-argument mapping is empty, and none of the supplied values —
and in particular no `-IPv4Address 10.0.0.99` pair — appears among the
tokens, contradicting the claimed name/value pairing. -/
theorem add_a_record_star_unpacks_argument_names :
    (DnsServerModule.add_a_record_command ⟨none⟩ "myzone.com" "www" "10.0.0.99" none).map
        PowerShellCommand.build
      = Except.ok ["Add-DnsServerResourceRecordA", "-AllowUpdateAny",
                   "-ZoneName", "-Name", "-IPv4Address"] ∧
    (DnsServerModule.add_a_record_command ⟨none⟩ "myzone.com" "www" "10.0.0.99" none).map
        PowerShellCommand.args
      = Except.ok [] ∧
    (DnsServerModule.add_a_record_command ⟨none⟩ "myzone.com" "www" "10.0.0.99" none).map
        (fun c => decide ("-ZoneName myzone.com" ∈ c.build) ||
                  decide ("-Name www" ∈ c.build) ||
                  decide ("-IPv4Address 10.0.0.99" ∈ c.build) ||
                  decide ("10.0.0.99" ∈ c.build))
      = Except.ok false := by
  refine ⟨rfl, rfl, rfl⟩

/-- Claim C4: `subprocess.Popen` sits outside the `try` block of
`PowerShellRunner.run`, so a process launch failure propagates as an
exception out of `run` instead of being returned as a `Result` with
`success = false`: at a concrete launch failure the run evaluates to
`Except.error`, not to `Except.ok` of any `Result`. -/
theorem run_propagates_launch_failure :
    PowerShellRunner.run (fun _ => none)
        (ProcessBehavior.launchFailure
          "FileNotFoundError: [WinError 2] The system cannot find the file specified")
        { cmdlet := "Get-Module DNSServer", flags := ["ListAvailable"],
          args := [], to_json_convert := false }
      = Except.error
          "FileNotFoundError: [WinError 2] The system cannot find the file specified" := by
  rfl

/-- Claim C5: whenever the runner's `Result` for the query command has
`success = false`, `get_dns_records` returns the empty list (wrapped in
`Except.ok`: the failure branch neither raises nor yields `None`),
regardless of zone, optional name, optional record type and of what
the JSON parser would do. -/
theorem get_dns_records_failure_returns_empty_list (m : DnsServerModule)
    (runner : PowerShellCommand → Result) (parse : String → Except String Json)
    (zone : String) (name : Option String) (record_type : Option RecordType)
    (h : (runner (m.get_dns_records_command zone name record_type)).success = false) :
    m.get_dns_records runner parse zone name record_type = Except.ok [] := by
  unfold DnsServerModule.get_dns_records
  simp [h]

/-- Witness for C5 at a concrete failing runner. -/
theorem get_dns_records_failure_returns_empty_list_witness :
    DnsServerModule.get_dns_records ⟨none⟩
        (fun _ => { success := false, code := 1, out := "", err := "boom" })
        (fun _ => Except.error "unparsed") "myzone.com" none none
      = Except.ok [] :=
  get_dns_records_failure_returns_empty_list ⟨none⟩
    (fun _ => { success := false, code := 1, out := "", err := "boom" })
    (fun _ => Except.error "unparsed") "myzone.com" none none rfl

/-- Claim C6: when the child process completes, `PowerShellRunner.run`
returns a `Result` (the decoding step never raises) whose `out` and
`err` are the captured byte streams decoded byte by byte with the
platform decoder, and every byte the platform decoder cannot decode is
substituted by the replacement character U+FFFD. -/
theorem run_decodes_with_replacement (enc : Nat → Option Char) (code : Int)
    (outBytes errBytes : List Nat) (command : PowerShellCommand) :
    (∃ r : Result,
        PowerShellRunner.run enc (ProcessBehavior.completes code outBytes errBytes) command
          = Except.ok r ∧
        r.out = decodeReplace enc outBytes ∧
        r.err = decodeReplace enc errBytes) ∧
    (∀ b : Nat, enc b = none → decodeByte enc b = Char.ofNat 0xFFFD) := by
  constructor
  · exact ⟨_, rfl, rfl, rfl⟩
  · intro b hb
    simp [decodeByte, hb]

/-- Witness for C6: a decoder that rejects every byte, applied at byte
255, yields the replacement character inside a completed run. -/
theorem run_decodes_with_replacement_witness :
    ((fun _ : Nat => (none : Option Char)) 255 = none) ∧
    decodeByte (fun _ : Nat => (none : Option Char)) 255 = Char.ofNat 0xFFFD :=
  ⟨rfl,
    (run_decodes_with_replacement (fun _ => none) 0 [255] []
        { cmdlet := "Get-Module DNSServer", flags := ["ListAvailable"],
          args := [], to_json_convert := false }).2 255 rfl⟩

/-- Claim C7: `is_dns_server_module_installed` returns `true` exactly
when the `Get-Module DNSServer -ListAvailable` invocation succeeds and
its captured stdout is non-empty. -/
theorem is_dns_server_module_installed_iff (m : DnsServerModule)
    (runner : PowerShellCommand → Result) :
    m.is_dns_server_module_installed runner = true ↔
      ((runner DnsServerModule.is_dns_server_module_installed_command).success = true ∧
        (runner DnsServerModule.is_dns_server_module_installed_command).out ≠ "") := by
  unfold DnsServerModule.is_dns_server_module_installed
  rw [string_ne_empty_iff_length_pos]
  simp

/-- Claim C9: `DnsServerModule.__init__` succeeds exactly when
`platform.system()` is `'Windows'`; on any other platform it raises
`AssertionError` with the source's message, so no facade operation can
be reached on a non-Windows platform. -/
theorem dns_server_module_init_windows_only (systemName : String)
    (server : Option String) :
    ((∃ m : DnsServerModule, DnsServerModule.init systemName server = InitResult.ok m) ↔
        systemName = "Windows") ∧
    (systemName ≠ "Windows" →
      DnsServerModule.init systemName server =
        InitResult.assertionError "DnsServerModule can run only on a Windows Server") := by
  constructor
  · constructor
    · rintro ⟨m, hm⟩
      by_contra hne
      simp [DnsServerModule.init, hne] at hm
    · intro h
      exact ⟨{ server := server }, by simp [DnsServerModule.init, h]⟩
  · intro h
    simp [DnsServerModule.init, h]

/-- Witness for C9 at the concrete platform name `Linux`. -/
theorem dns_server_module_init_windows_only_witness :
    DnsServerModule.init "Linux" none =
      InitResult.assertionError "DnsServerModule can run only on a Windows Server" :=
  (dns_server_module_init_windows_only "Linux" none).2 (by decide)

/-- Claim C8 (spec-modelled: `format_ttl` is not under `src/`): the
well-formed duration `"1h"` formats to the tool's time-span token
`"01:00:00"`, and every malformed TTL string — one that is not a
non-empty digit run followed by a recognized unit suffix — makes
`format_ttl` fail fast with a non-empty descriptive error; through
`add_txt_record` this failure surfaces before any process is spawned:
the result is the same formatting error for every runner. -/
theorem format_ttl_fails_fast (ttl : String) (h : ttl_well_formed ttl = false) :
    format_ttl "1h" = Except.ok "01:00:00" ∧
    ∃ msg : String, format_ttl ttl = Except.error msg ∧ 0 < msg.length ∧
      ∀ (m : DnsServerModule) (runner : PowerShellCommand → Result)
        (zone name content : String),
        m.add_txt_record runner zone name content ttl = Except.error msg := by
  refine ⟨rfl, ?_⟩
  cases hf : format_ttl ttl with
  | ok t =>
      rw [format_ttl_ok_well_formed ttl t hf] at h
      exact absurd h (by simp)
  | error msg =>
      refine ⟨msg, rfl, format_ttl_error_msg_pos ttl msg hf, ?_⟩
      intro m runner zone name content
      unfold DnsServerModule.add_txt_record DnsServerModule.add_txt_record_command
      rw [hf]
      rfl

/-- Witness for C8 at the concrete malformed TTL `"bogus"`. -/
theorem format_ttl_fails_fast_witness :
    format_ttl "1h" = Except.ok "01:00:00" ∧
    ∃ msg : String, format_ttl "bogus" = Except.error msg ∧ 0 < msg.length ∧
      ∀ (m : DnsServerModule) (runner : PowerShellCommand → Result)
        (zone name content : String),
        m.add_txt_record runner zone name content "bogus" = Except.error msg :=
  format_ttl_fails_fast "bogus" rfl

/-- Claim C10: for each removal operation (`remove_a_record`,
`remove_cname_record`, `remove_txt_record`) the `Name` keyword
argument is present in the built command exactly when the supplied
name is truthy (neither missing nor empty); when present it carries
the supplied name, and with a falsy name (and no configured server,
and for TXT no record data) the keyword arguments are only the zone
and the record type — a zone-wide removal for that type. -/
theorem remove_record_name_argument (m : DnsServerModule) (zone : String)
    (name record_data : Option String) :
    ((m.remove_a_record_command zone name).args.any (fun p => p.1 == "Name")
        = truthy name) ∧
    ((m.remove_cname_record_command zone name).args.any (fun p => p.1 == "Name")
        = truthy name) ∧
    ((m.remove_txt_record_command zone name record_data).args.any (fun p => p.1 == "Name")
        = truthy name) ∧
    (truthy name = true →
      ("Name", name.getD "") ∈ (m.remove_a_record_command zone name).args ∧
      ("Name", name.getD "") ∈ (m.remove_cname_record_command zone name).args ∧
      ("Name", name.getD "") ∈ (m.remove_txt_record_command zone name record_data).args) ∧
    (truthy name = false → truthy m.server = false → truthy record_data = false →
      (m.remove_a_record_command zone name).args
          = [("ZoneName", zone), ("RRType", "A")] ∧
      (m.remove_cname_record_command zone name).args
          = [("ZoneName", zone), ("RRType", "CNAME")] ∧
      (m.remove_txt_record_command zone name record_data).args
          = [("ZoneName", zone), ("RRType", "Txt")]) := by
  unfold DnsServerModule.remove_a_record_command
    DnsServerModule.remove_cname_record_command
    DnsServerModule.remove_txt_record_command
  cases hs : truthy m.server <;> cases hn : truthy name <;>
    cases hr : truthy record_data <;> simp

/-- Claim C3 counterexample: with the server identifier `dns1`
configured on the facade, the command built by `add_txt_record`
carries the server nowhere — not as the `Computer` keyword argument,
not as a flag, and not as any built token — refuting the claimed
"if and only if" for `add_txt_record`. -/
theorem add_txt_record_ignores_configured_server :
    truthy (DnsServerModule.mk (some "dns1")).server = true ∧
    (DnsServerModule.add_txt_record_command ⟨some "dns1"⟩ "myzone.com" "www"
          "my test record" "1h").map
        (fun c => c.args.any (fun p => p.1 == "Computer") ||
                  c.flags.contains "Computer" ||
                  c.build.any (fun tok => tok == "-Computer dns1"))
      = Except.ok false :=
  ⟨rfl, rfl⟩

/-- Claim C3 (amended): `remove_a_record`, `remove_cname_record`,
`remove_txt_record` and `add_cname_record` include the `Computer`
keyword argument, paired with the configured server, exactly when a
server identifier was configured; `add_a_record` — whose keyword dict
is star-unpacked into flags — includes only a bare `Computer` flag
(the server value dropped) exactly when one was configured, with an
empty keyword-argument mapping; and `add_txt_record` never includes
the server identifier at all. -/
theorem computer_argument_presence (m : DnsServerModule)
    (zone ip content alias_name server_name txt_ttl : String)
    (name record_data ttl : Option String) :
    ((m.remove_a_record_command zone name).args.any (fun p => p.1 == "Computer")
        = truthy m.server) ∧
    ((m.remove_cname_record_command zone name).args.any (fun p => p.1 == "Computer")
        = truthy m.server) ∧
    ((m.remove_txt_record_command zone name record_data).args.any
          (fun p => p.1 == "Computer")
        = truthy m.server) ∧
    (∀ c : PowerShellCommand,
      m.add_cname_record_command zone alias_name server_name ttl = Except.ok c →
        c.args.any (fun p => p.1 == "Computer") = truthy m.server ∧
        (truthy m.server = true → ("Computer", m.server.getD "") ∈ c.args)) ∧
    (∀ c : PowerShellCommand,
      m.add_a_record_command zone alias_name ip ttl = Except.ok c →
        c.flags.contains "Computer" = truthy m.server ∧ c.args = []) ∧
    (∀ c : PowerShellCommand,
      m.add_txt_record_command zone alias_name content txt_ttl = Except.ok c →
        c.args.any (fun p => p.1 == "Computer") = false ∧
        c.flags.contains "Computer" = false) ∧
    (truthy m.server = true →
      ("Computer", m.server.getD "") ∈ (m.remove_a_record_command zone name).args ∧
      ("Computer", m.server.getD "") ∈ (m.remove_cname_record_command zone name).args ∧
      ("Computer", m.server.getD "")
          ∈ (m.remove_txt_record_command zone name record_data).args) := by
  refine ⟨?_, ?_, ?_, ?_, ?_, ?_, ?_⟩
  · unfold DnsServerModule.remove_a_record_command
    cases hs : truthy m.server <;> cases hn : truthy name <;> simp
  · unfold DnsServerModule.remove_cname_record_command
    cases hs : truthy m.server <;> cases hn : truthy name <;> simp
  · unfold DnsServerModule.remove_txt_record_command
    cases hs : truthy m.server <;> cases hn : truthy name <;>
      cases hr : truthy record_data <;> simp
  · intro c hc
    unfold DnsServerModule.add_cname_record_command at hc
    cases ht : truthy ttl with
    | false =>
        rw [ht] at hc
        simp only [Bool.false_eq_true, if_false, except_bind_ok] at hc
        cases hc
        cases hs : truthy m.server <;> simp
    | true =>
        rw [ht] at hc
        simp only [if_true, except_bind_ok] at hc
        cases hf : format_ttl (ttl.getD "") with
        | error e =>
            rw [hf, except_bind_error] at hc
            exact Except.noConfusion hc
        | ok t =>
            rw [hf, except_bind_ok, except_pure_bind] at hc
            cases hc
            cases hs : truthy m.server <;> simp
  · intro c hc
    unfold DnsServerModule.add_a_record_command at hc
    cases ht : truthy ttl with
    | false =>
        rw [ht] at hc
        simp only [Bool.false_eq_true, if_false, except_bind_ok] at hc
        cases hc
        cases hs : truthy m.server <;> simp [List.contains]
    | true =>
        rw [ht] at hc
        simp only [if_true, except_bind_ok] at hc
        cases hf : format_ttl (ttl.getD "") with
        | error e =>
            rw [hf, except_bind_error] at hc
            exact Except.noConfusion hc
        | ok t =>
            rw [hf, except_bind_ok, except_pure_bind] at hc
            cases hc
            cases hs : truthy m.server <;> simp [List.contains]
  · intro c hc
    unfold DnsServerModule.add_txt_record_command at hc
    cases hf : format_ttl txt_ttl with
    | error e =>
        rw [hf, except_bind_error] at hc
        exact Except.noConfusion hc
    | ok t =>
        rw [hf, except_bind_ok] at hc
        cases hc
        simp [List.contains]
  · intro hs
    unfold DnsServerModule.remove_a_record_command
      DnsServerModule.remove_cname_record_command
      DnsServerModule.remove_txt_record_command
    cases hn : truthy name <;> cases hr : truthy record_data <;> simp [hs]

/-- Witness for C3's amended theorem with a configured server `dns1`
and the concrete commands the three add operations build. -/
theorem computer_argument_presence_witness :
    (({ cmdlet := "Add-DnsServerResourceRecordCName", flags := [],
        args := [("ZoneName", "myzone.com"), ("Name", "www"),
                 ("HostNameAlias", "\"target.com\""), ("Computer", "dns1")],
        to_json_convert := false } : PowerShellCommand).args.any
          (fun p => p.1 == "Computer") = truthy (some "dns1") ∧
      (truthy (some "dns1") = true →
        ("Computer", (some "dns1").getD "")
            ∈ ({ cmdlet := "Add-DnsServerResourceRecordCName", flags := [],
                 args := [("ZoneName", "myzone.com"), ("Name", "www"),
                          ("HostNameAlias", "\"target.com\""), ("Computer", "dns1")],
                 to_json_convert := false } : PowerShellCommand).args)) ∧
    (({ cmdlet := "Add-DnsServerResourceRecordA",
        flags := ["AllowUpdateAny", "ZoneName", "Name", "IPv4Address", "Computer"],
        args := [], to_json_convert := false } : PowerShellCommand).flags.contains
          "Computer" = truthy (some "dns1") ∧
      ({ cmdlet := "Add-DnsServerResourceRecordA",
         flags := ["AllowUpdateAny", "ZoneName", "Name", "IPv4Address", "Computer"],
         args := [], to_json_convert := false } : PowerShellCommand).args = []) ∧
    (({ cmdlet := "Add-DnsServerResourceRecord", flags := ["AllowUpdateAny", "Txt"],
        args := [("ZoneName", "myzone.com"), ("Name", "www"),
                 ("DescriptiveText", "my test record"), ("TimeToLive", "01:00:00")],
        to_json_convert := false } : PowerShellCommand).args.any
          (fun p => p.1 == "Computer") = false ∧
      ({ cmdlet := "Add-DnsServerResourceRecord", flags := ["AllowUpdateAny", "Txt"],
         args := [("ZoneName", "myzone.com"), ("Name", "www"),
                  ("DescriptiveText", "my test record"), ("TimeToLive", "01:00:00")],
         to_json_convert := false } : PowerShellCommand).flags.contains "Computer"
        = false) :=
  ⟨(computer_argument_presence ⟨some "dns1"⟩ "myzone.com" "10.0.0.99" "my test record"
      "www" "target.com" "1h" (some "www") none none).2.2.2.1 _ rfl,
   (computer_argument_presence ⟨some "dns1"⟩ "myzone.com" "10.0.0.99" "my test record"
      "www" "target.com" "1h" (some "www") none none).2.2.2.2.1 _ rfl,
   (computer_argument_presence ⟨some "dns1"⟩ "myzone.com" "10.0.0.99" "my test record"
      "www" "target.com" "1h" (some "www") none none).2.2.2.2.2.1 _ rfl⟩

/-- Witness for C10 with no name, no server and no record data. -/
theorem remove_record_name_argument_witness :
    (DnsServerModule.remove_a_record_command ⟨none⟩ "myzone.com" none).args
        = [("ZoneName", "myzone.com"), ("RRType", "A")] ∧
    (DnsServerModule.remove_cname_record_command ⟨none⟩ "myzone.com" none).args
        = [("ZoneName", "myzone.com"), ("RRType", "CNAME")] ∧
    (DnsServerModule.remove_txt_record_command ⟨none⟩ "myzone.com" none none).args
        = [("ZoneName", "myzone.com"), ("RRType", "Txt")] :=
  (remove_record_name_argument ⟨none⟩ "myzone.com" none none).2.2.2.2 rfl rfl rfl

end WinDns
